import Mathlib

/-!
Verification of the merge-request-dependencies client module
(`merge_request_dependencies.go` of llxp/go-gitlab).

The module is a thin REST binding: it normalizes a parent identifier,
builds a URL path, constructs a request through the shared client
collaborator and executes it.  The collaborator functions (`parseID`,
`PathEscape`, `NewRequest`, `Do`) and the JSON machinery live outside the
given source file, so they are modelled from the specification; the three
operations themselves are translated line by line from the source.
-/

/-- A JSON value, used to model request bodies and response payloads.
Numbers are modelled as integers, which covers every numeric field of the
wire schema in this module. -/
inductive Json where
  | null : Json
  | bool (b : Bool) : Json
  | num (n : Int) : Json
  | str (s : String) : Json
  | arr (elems : List Json) : Json
  | obj (fields : List (String × Json)) : Json
deriving Repr

/-- Modelled from the spec: the dynamic parent-identifier parameter
(`pid interface\x7b\x7d` in the source) accepts a numeric ID, a path name, or an
unsupported value of some other dynamic type. -/
inductive Pid where
  | byInt (n : Int) : Pid
  | byStr (s : String) : Pid
  | other (typeName : String) : Pid
deriving Repr, DecidableEq

/-- Modelled from the spec: identifier normalization (`parseID`), which is
declared outside this source file.  It accepts a numeric or string
identifier and returns a path-safe string, or an error on any other
dynamic type.  An integer is rendered in decimal, a string is passed
through unchanged. -/
def parseID : Pid → Except String String
  | Pid.byInt n => Except.ok (toString n)
  | Pid.byStr s => Except.ok s
  | Pid.other t => Except.error ("invalid ID type " ++ t)

/-- One hexadecimal digit (uppercase), for percent-encoding. -/
def hexDigit (n : Nat) : Char :=
  if n < 10 then Char.ofNat (48 + n) else Char.ofNat (55 + n)

/-- Is this byte an RFC 3986 unreserved character (letter, digit, or one of
the marks kept verbatim by a path escaper)? -/
def unreservedByte (b : Nat) : Bool :=
  (65 ≤ b && b ≤ 90) || (97 ≤ b && b ≤ 122) || (48 ≤ b && b ≤ 57) ||
  b == 45 || b == 95 || b == 126

/-- Percent-encode a single byte: kept verbatim when unreserved, otherwise
rendered as a percent sign followed by two hexadecimal digits. -/
def escByte (b : Nat) : List Char :=
  if unreservedByte b then [Char.ofNat b]
  else ['%', hexDigit (b / 16), hexDigit (b % 16)]

/-- UTF-8 encoding of one character, as a list of byte values. -/
def utf8Bytes (c : Char) : List Nat :=
  let n := c.toNat
  if n < 128 then [n]
  else if n < 2048 then [192 + n / 64, 128 + n % 64]
  else if n < 65536 then [224 + n / 4096, 128 + n / 64 % 64, 128 + n % 64]
  else [240 + n / 262144, 128 + n / 4096 % 64, 128 + n / 64 % 64, 128 + n % 64]

/-- Modelled from the spec: path-segment escaping (`PathEscape`), declared
outside this source file.  It percent-encodes a path component so that the
result is safe to splice into a URL path: every byte of the UTF-8 encoding
that is not unreserved is percent-encoded. -/
def pathEscape (s : String) : String :=
  ⟨(s.data.flatMap utf8Bytes).flatMap escByte⟩

/-- The URL path built by `CreateMergeRequestDependency` and
`GetMergeRequestDependencies` (source lines 125 and 174):
`projects/<escaped project>/merge_requests/<mergeRequest>/blocks`. -/
def blocksPath (project : String) (mergeRequest : Int) : String :=
  "projects/" ++ pathEscape project ++ "/merge_requests/" ++
    toString mergeRequest ++ "/blocks"

/-- The URL path built by `DeleteMergeRequestDependency` (source line 150):
`projects/<escaped project>/merge_requests/<mergeRequest>/blocks/<blockingMergeRequest>`. -/
def blocksDeletePath (project : String) (mergeRequest blockingMergeRequest : Int) : String :=
  "projects/" ++ pathEscape project ++ "/merge_requests/" ++
    toString mergeRequest ++ "/blocks/" ++ toString blockingMergeRequest

/-- Field lookup in a decoded JSON object.  Modelled from the spec: the
JSON machinery is an external collaborator (Go `encoding/json`); when a key
occurs several times the last occurrence wins, matching the streaming
decoder. -/
def lookupField (fields : List (String × Json)) (key : String) : Option Json :=
  fields.foldl (fun acc p => if p.1 = key then some p.2 else acc) none

/-- Modelled from the spec: a timestamp value (`time.Time`), kept as its
wire string; the zero value renders as the zero RFC 3339 instant.  Time
parsing itself is an external collaborator and is not re-verified here. -/
structure GoTime where
  rfc3339 : String
deriving Repr, DecidableEq

/-- The zero `time.Time`, as it appears after decoding a payload that
omits a non-nullable timestamp field. -/
def zeroTime : GoTime := ⟨"0001-01-01T00:00:00Z"⟩

/-- Modelled from the spec: the external `BasicUser` type (authorship
snapshot), declared outside this source file; kept as its raw JSON object
payload since this module never inspects its fields. -/
structure BasicUser where
  payload : Json
deriving Repr

/-- Modelled from the spec: the external `IssueReferences` type, kept as
its raw JSON object payload. -/
structure IssueReferences where
  payload : Json
deriving Repr

/-- Modelled from the spec: the external `TimeStats` type, kept as its raw
JSON object payload. -/
structure TimeStats where
  payload : Json
deriving Repr

/-- Modelled from the spec: the external `TasksCompletionStatus` type,
kept as its raw JSON object payload. -/
structure TasksCompletionStatus where
  payload : Json
deriving Repr

/-- Modelled from the spec: the external `LabelOptions` type, a list of
label names. -/
def LabelOptions := List String
deriving Repr

/-- Decode a JSON number into a Go `int`. -/
def decInt : Json → Except String Int
  | Json.num n => Except.ok n
  | _ => Except.error "json: cannot unmarshal value into field of type int"

/-- Decode a JSON string into a Go `string`. -/
def decStr : Json → Except String String
  | Json.str s => Except.ok s
  | _ => Except.error "json: cannot unmarshal value into field of type string"

/-- Decode a JSON boolean into a Go `bool`. -/
def decBool : Json → Except String Bool
  | Json.bool b => Except.ok b
  | _ => Except.error "json: cannot unmarshal value into field of type bool"

/-- Decode a JSON string into a `time.Time` value. -/
def decTime : Json → Except String GoTime
  | Json.str s => Except.ok ⟨s⟩
  | _ => Except.error "json: cannot unmarshal value into field of type time.Time"

/-- Decode a JSON object into the opaque `BasicUser` snapshot. -/
def decUser : Json → Except String BasicUser
  | Json.obj fs => Except.ok ⟨Json.obj fs⟩
  | _ => Except.error "json: cannot unmarshal value into field of type BasicUser"

/-- Decode a JSON object into the opaque `IssueReferences` snapshot. -/
def decReferences : Json → Except String IssueReferences
  | Json.obj fs => Except.ok ⟨Json.obj fs⟩
  | _ => Except.error "json: cannot unmarshal value into field of type IssueReferences"

/-- Decode a JSON object into the opaque `TimeStats` snapshot. -/
def decTimeStats : Json → Except String TimeStats
  | Json.obj fs => Except.ok ⟨Json.obj fs⟩
  | _ => Except.error "json: cannot unmarshal value into field of type TimeStats"

/-- Decode a JSON object into the opaque `TasksCompletionStatus` snapshot. -/
def decTasks : Json → Except String TasksCompletionStatus
  | Json.obj fs => Except.ok ⟨Json.obj fs⟩
  | _ => Except.error "json: cannot unmarshal value into field of type TasksCompletionStatus"

/-- Decode one element of a `[]*BasicUser` slice: JSON null yields a nil
pointer. -/
def decUserPtr : Json → Except String (Option BasicUser)
  | Json.null => Except.ok none
  | j => (decUser j).map some

/-- Decode a JSON array into a `[]*BasicUser` slice value. -/
def decUserList : Json → Except String (List (Option BasicUser))
  | Json.arr xs => xs.mapM decUserPtr
  | _ => Except.error "json: cannot unmarshal value into field of type []*BasicUser"

/-- Decode a JSON array of strings into a `LabelOptions` value. -/
def decLabels : Json → Except String LabelOptions
  | Json.arr xs => xs.mapM decStr
  | _ => Except.error "json: cannot unmarshal value into field of type LabelOptions"

/-- Decode a value-typed (non-pointer) struct field: an absent key, or a
JSON null, leaves the zero value `dflt` in place (Go `encoding/json`
semantics); otherwise the value is decoded with `dec`. -/
def valField (fields : List (String × Json)) (key : String)
    (dec : Json → Except String τ) (dflt : τ) : Except String τ :=
  match lookupField fields key with
  | none => Except.ok dflt
  | some Json.null => Except.ok dflt
  | some j => dec j

/-- Decode a pointer-typed (or slice-typed) struct field: an absent key or
a JSON null yields a nil pointer (`none`); otherwise the pointed-to value
is decoded with `dec`. -/
def ptrField (fields : List (String × Json)) (key : String)
    (dec : Json → Except String τ) : Except String (Option τ) :=
  match lookupField fields key with
  | none => Except.ok none
  | some Json.null => Except.ok none
  | some j => (dec j).map some

/-- `BlockingMergeRequest` (source lines 48 to 100): the denormalized
snapshot of the blocking merge request.  Pointer-typed and slice-typed Go
fields become `Option`; value-typed fields keep their plain type.  Field
names and order follow the source. -/
structure BlockingMergeRequest where
  ID : Int
  Iid : Int
  TargetBranch : String
  SourceBranch : String
  ProjectID : Int
  Title : String
  State : String
  CreatedAt : GoTime
  UpdatedAt : GoTime
  Upvotes : Int
  Downvotes : Int
  Author : Option BasicUser
  Assignee : Option BasicUser
  Assignees : Option (List (Option BasicUser))
  Reviewers : Option (List (Option BasicUser))
  SourceProjectID : Int
  TargetProjectID : Int
  Labels : Option LabelOptions
  Description : String
  Draft : Bool
  WorkInProgress : Bool
  Milestone : Option String
  MergeWhenPipelineSucceeds : Bool
  DetailedMergeStatus : String
  MergedBy : Option BasicUser
  MergedAt : Option GoTime
  ClosedBy : Option BasicUser
  ClosedAt : Option GoTime
  Sha : String
  MergeCommitSha : String
  SquashCommitSha : String
  UserNotesCount : Int
  ShouldRemoveSourceBranch : Option Bool
  ForceRemoveSourceBranch : Bool
  WebURL : String
  References : Option IssueReferences
  DiscussionLocked : Option Bool
  TimeStats : Option TimeStats
  Squash : Bool
  ApprovalsBeforeMerge : Option Int
  Reference : String
  TaskCompletionStatus : Option TasksCompletionStatus
  HasConflicts : Bool
  BlockingDiscussionsResolved : Bool
  MergeStatus : String
  MergeUser : Option BasicUser
  MergeAfter : GoTime
  Imported : Bool
  ImportedFrom : String
  PreparedAt : Option GoTime
  SquashOnMerge : Bool

/-- The Go zero value of `BlockingMergeRequest`: every value-typed field
holds its zero value and every pointer-typed field is nil. -/
def zeroBlockingMergeRequest : BlockingMergeRequest where
  ID := 0
  Iid := 0
  TargetBranch := ""
  SourceBranch := ""
  ProjectID := 0
  Title := ""
  State := ""
  CreatedAt := zeroTime
  UpdatedAt := zeroTime
  Upvotes := 0
  Downvotes := 0
  Author := none
  Assignee := none
  Assignees := none
  Reviewers := none
  SourceProjectID := 0
  TargetProjectID := 0
  Labels := none
  Description := ""
  Draft := false
  WorkInProgress := false
  Milestone := none
  MergeWhenPipelineSucceeds := false
  DetailedMergeStatus := ""
  MergedBy := none
  MergedAt := none
  ClosedBy := none
  ClosedAt := none
  Sha := ""
  MergeCommitSha := ""
  SquashCommitSha := ""
  UserNotesCount := 0
  ShouldRemoveSourceBranch := none
  ForceRemoveSourceBranch := false
  WebURL := ""
  References := none
  DiscussionLocked := none
  TimeStats := none
  Squash := false
  ApprovalsBeforeMerge := none
  Reference := ""
  TaskCompletionStatus := none
  HasConflicts := false
  BlockingDiscussionsResolved := false
  MergeStatus := ""
  MergeUser := none
  MergeAfter := zeroTime
  Imported := false
  ImportedFrom := ""
  PreparedAt := none
  SquashOnMerge := false

/-- JSON decoding of `BlockingMergeRequest`, field by field with the json
struct tags of source lines 49 to 99, under the Go `encoding/json`
semantics modelled by `valField` and `ptrField`. -/
def decodeBlockingMergeRequest : Json → Except String BlockingMergeRequest
  | Json.obj fs => do
    let fID ← valField fs "id" decInt 0
    let fIid ← valField fs "iid" decInt 0
    let fTargetBranch ← valField fs "target_branch" decStr ""
    let fSourceBranch ← valField fs "source_branch" decStr ""
    let fProjectID ← valField fs "project_id" decInt 0
    let fTitle ← valField fs "title" decStr ""
    let fState ← valField fs "state" decStr ""
    let fCreatedAt ← valField fs "created_at" decTime zeroTime
    let fUpdatedAt ← valField fs "updated_at" decTime zeroTime
    let fUpvotes ← valField fs "upvotes" decInt 0
    let fDownvotes ← valField fs "downvotes" decInt 0
    let fAuthor ← ptrField fs "author" decUser
    let fAssignee ← ptrField fs "assignee" decUser
    let fAssignees ← ptrField fs "assignees" decUserList
    let fReviewers ← ptrField fs "reviewers" decUserList
    let fSourceProjectID ← valField fs "source_project_id" decInt 0
    let fTargetProjectID ← valField fs "target_project_id" decInt 0
    let fLabels ← ptrField fs "labels" decLabels
    let fDescription ← valField fs "description" decStr ""
    let fDraft ← valField fs "draft" decBool false
    let fWorkInProgress ← valField fs "work_in_progress" decBool false
    let fMilestone ← ptrField fs "milestone" decStr
    let fMergeWhenPipelineSucceeds ← valField fs "merge_when_pipeline_succeeds" decBool false
    let fDetailedMergeStatus ← valField fs "detailed_merge_status" decStr ""
    let fMergedBy ← ptrField fs "merged_by" decUser
    let fMergedAt ← ptrField fs "merged_at" decTime
    let fClosedBy ← ptrField fs "closed_by" decUser
    let fClosedAt ← ptrField fs "closed_at" decTime
    let fSha ← valField fs "sha" decStr ""
    let fMergeCommitSha ← valField fs "merge_commit_sha" decStr ""
    let fSquashCommitSha ← valField fs "squash_commit_sha" decStr ""
    let fUserNotesCount ← valField fs "user_notes_count" decInt 0
    let fShouldRemoveSourceBranch ← ptrField fs "should_remove_source_branch" decBool
    let fForceRemoveSourceBranch ← valField fs "force_remove_source_branch" decBool false
    let fWebURL ← valField fs "web_url" decStr ""
    let fReferences ← ptrField fs "references" decReferences
    let fDiscussionLocked ← ptrField fs "discussion_locked" decBool
    let fTimeStats ← ptrField fs "time_stats" decTimeStats
    let fSquash ← valField fs "squash" decBool false
    let fApprovalsBeforeMerge ← ptrField fs "approvals_before_merge" decInt
    let fReference ← valField fs "reference" decStr ""
    let fTaskCompletionStatus ← ptrField fs "task_completion_status" decTasks
    let fHasConflicts ← valField fs "has_conflicts" decBool false
    let fBlockingDiscussionsResolved ← valField fs "blocking_discussions_resolved" decBool false
    let fMergeStatus ← valField fs "merge_status" decStr ""
    let fMergeUser ← ptrField fs "merge_user" decUser
    let fMergeAfter ← valField fs "merge_after" decTime zeroTime
    let fImported ← valField fs "imported" decBool false
    let fImportedFrom ← valField fs "imported_from" decStr ""
    let fPreparedAt ← ptrField fs "prepared_at" decTime
    let fSquashOnMerge ← valField fs "squash_on_merge" decBool false
    Except.ok {
      ID := fID, Iid := fIid, TargetBranch := fTargetBranch,
      SourceBranch := fSourceBranch, ProjectID := fProjectID,
      Title := fTitle, State := fState, CreatedAt := fCreatedAt,
      UpdatedAt := fUpdatedAt, Upvotes := fUpvotes, Downvotes := fDownvotes,
      Author := fAuthor, Assignee := fAssignee, Assignees := fAssignees,
      Reviewers := fReviewers, SourceProjectID := fSourceProjectID,
      TargetProjectID := fTargetProjectID, Labels := fLabels,
      Description := fDescription, Draft := fDraft,
      WorkInProgress := fWorkInProgress, Milestone := fMilestone,
      MergeWhenPipelineSucceeds := fMergeWhenPipelineSucceeds,
      DetailedMergeStatus := fDetailedMergeStatus, MergedBy := fMergedBy,
      MergedAt := fMergedAt, ClosedBy := fClosedBy, ClosedAt := fClosedAt,
      Sha := fSha, MergeCommitSha := fMergeCommitSha,
      SquashCommitSha := fSquashCommitSha, UserNotesCount := fUserNotesCount,
      ShouldRemoveSourceBranch := fShouldRemoveSourceBranch,
      ForceRemoveSourceBranch := fForceRemoveSourceBranch, WebURL := fWebURL,
      References := fReferences, DiscussionLocked := fDiscussionLocked,
      TimeStats := fTimeStats, Squash := fSquash,
      ApprovalsBeforeMerge := fApprovalsBeforeMerge, Reference := fReference,
      TaskCompletionStatus := fTaskCompletionStatus,
      HasConflicts := fHasConflicts,
      BlockingDiscussionsResolved := fBlockingDiscussionsResolved,
      MergeStatus := fMergeStatus, MergeUser := fMergeUser,
      MergeAfter := fMergeAfter, Imported := fImported,
      ImportedFrom := fImportedFrom, PreparedAt := fPreparedAt,
      SquashOnMerge := fSquashOnMerge }
  | _ => Except.error "json: cannot unmarshal value into BlockingMergeRequest"

/-- `MergeRequestDependency` (source lines 38 to 42): one dependency
record. -/
structure MergeRequestDependency where
  ID : Int
  BlockingMergeRequest : BlockingMergeRequest
  ProjectID : Int

/-- JSON decoding of `MergeRequestDependency` with the json struct tags of
source lines 39 to 41. -/
def decodeMergeRequestDependency : Json → Except String MergeRequestDependency
  | Json.obj fs => do
    let fID ← valField fs "id" decInt 0
    let fBlocking ← valField fs "blocking_merge_request"
      decodeBlockingMergeRequest zeroBlockingMergeRequest
    let fProjectID ← valField fs "project_id" decInt 0
    Except.ok { ID := fID, BlockingMergeRequest := fBlocking, ProjectID := fProjectID }
  | _ => Except.error "json: cannot unmarshal value into MergeRequestDependency"

/-- JSON decoding of the `[]MergeRequestDependency` target of
`GetMergeRequestDependencies` (source line 181): a JSON null leaves the
slice nil (`none`), an array decodes element by element. -/
def decodeDependencyList : Json → Except String (Option (List MergeRequestDependency))
  | Json.null => Except.ok none
  | Json.arr xs => (xs.mapM decodeMergeRequestDependency).map some
  | _ => Except.error "json: cannot unmarshal value into []MergeRequestDependency"

/-- `CreateMergeRequestDependencyOptions` (source lines 111 to 113). -/
structure CreateMergeRequestDependencyOptions where
  BlockingMergeRequestID : Int
deriving Repr, DecidableEq

/-- Serialization of `CreateMergeRequestDependencyOptions` under its
struct tags (source line 112): the `blocking_merge_request_id` field
carries `omitempty`, so a zero value is omitted from the body/query. -/
def serializeCreateOptions (opt : CreateMergeRequestDependencyOptions) :
    List (String × Json) :=
  if opt.BlockingMergeRequestID = 0 then []
  else [("blocking_merge_request_id", Json.num opt.BlockingMergeRequestID)]

/-- An HTTP request as produced by the request-construction collaborator:
method, relative path, and the serialized body or query (nil when the
operation sends no payload). -/
structure Request where
  method : String
  path : String
  body : Option (List (String × Json))

/-- Transport response metadata together with the raw JSON response
body. -/
structure HttpResponse where
  statusCode : Int
  body : Json

/-- The outcome of one `Do` call on the transport collaborator: success
carries a non-nil response; failure carries the error and whatever
response metadata is available (possibly nil). -/
inductive DoOutcome where
  | success (resp : HttpResponse) : DoOutcome
  | failure (resp : Option HttpResponse) (err : String) : DoOutcome

/-- Modelled from the spec: the shared client collaborator.  Request
construction either fails with the recorded error or yields the request
built from its arguments; request execution maps each request to an
outcome.  Both are arbitrary functions, so theorems quantifying over
`Client` cover every collaborator behavior. -/
structure Client where
  newRequestFail : String → String → Option (List (String × Json)) → Option String
  outcome : Request → DoOutcome

/-- One recorded invocation of the collaborator, used to observe which
network-facing calls an operation performs. -/
inductive Call where
  | newRequestCall (method : String) (path : String)
      (body : Option (List (String × Json))) : Call
  | doCall (req : Request) : Call

/-- Modelled from the spec: `NewRequest` of the shared client, which
builds a request from a method, a path and an optional body/query value,
or fails. -/
def clientNewRequest (c : Client) (method path : String)
    (body : Option (List (String × Json))) : Except String Request :=
  match c.newRequestFail method path body with
  | some e => Except.error e
  | none => Except.ok { method := method, path := path, body := body }

/-- Modelled from the spec: `Do` with a nil decode target, as called by
Create and Delete (source lines 132 and 157): the response body is not
decoded; the pair mirrors the Go `(resp, err)` result. -/
def clientDoNil (c : Client) (req : Request) :
    Option HttpResponse × Option String :=
  match c.outcome req with
  | DoOutcome.success r => (some r, none)
  | DoOutcome.failure r e => (r, some e)

/-- Modelled from the spec: `Do` with a `[]MergeRequestDependency` decode
target, as called by Get (source line 182): on transport success the body
is decoded into the target and a decoding failure is surfaced as the
returned error, alongside the response metadata. -/
def clientDoDeps (c : Client) (req : Request) :
    Option (List MergeRequestDependency) × Option HttpResponse × Option String :=
  match c.outcome req with
  | DoOutcome.failure r e => (none, r, some e)
  | DoOutcome.success r =>
    match decodeDependencyList r.body with
    | Except.error e => (none, some r, some e)
    | Except.ok mrd => (mrd, some r, none)

/-- `CreateMergeRequestDependency` (source lines 120 to 138), instrumented
with the list of collaborator calls it performs.  The result pair mirrors
the Go `(*Response, error)` return values. -/
def createMergeRequestDependency (c : Client) (pid : Pid) (mergeRequest : Int)
    (opt : CreateMergeRequestDependencyOptions) :
    (Option HttpResponse × Option String) × List Call :=
  match parseID pid with
  | Except.error e => ((none, some e), [])
  | Except.ok project =>
    let u := blocksPath project mergeRequest
    let body := serializeCreateOptions opt
    match clientNewRequest c "POST" u (some body) with
    | Except.error e => ((none, some e), [Call.newRequestCall "POST" u (some body)])
    | Except.ok req =>
      let r := clientDoNil c req
      match r.2 with
      | some e =>
        ((r.1, some e), [Call.newRequestCall "POST" u (some body), Call.doCall req])
      | none =>
        ((r.1, none), [Call.newRequestCall "POST" u (some body), Call.doCall req])

/-- `DeleteMergeRequestDependency` (source lines 145 to 163), instrumented
with the list of collaborator calls it performs. -/
def deleteMergeRequestDependency (c : Client) (pid : Pid)
    (mergeRequest blockingMergeRequest : Int) :
    (Option HttpResponse × Option String) × List Call :=
  match parseID pid with
  | Except.error e => ((none, some e), [])
  | Except.ok project =>
    let u := blocksDeletePath project mergeRequest blockingMergeRequest
    match clientNewRequest c "DELETE" u none with
    | Except.error e => ((none, some e), [Call.newRequestCall "DELETE" u none])
    | Except.ok req =>
      let r := clientDoNil c req
      match r.2 with
      | some e =>
        ((r.1, some e), [Call.newRequestCall "DELETE" u none, Call.doCall req])
      | none =>
        ((r.1, none), [Call.newRequestCall "DELETE" u none, Call.doCall req])

/-- `GetMergeRequestDependencies` (source lines 169 to 188), instrumented
with the list of collaborator calls it performs.  The result triple
mirrors the Go `([]MergeRequestDependency, *Response, error)` return
values, with `none` for a nil slice. -/
def getMergeRequestDependencies (c : Client) (pid : Pid) (mergeRequest : Int) :
    (Option (List MergeRequestDependency) × Option HttpResponse × Option String) × List Call :=
  match parseID pid with
  | Except.error e => ((none, none, some e), [])
  | Except.ok project =>
    let u := blocksPath project mergeRequest
    match clientNewRequest c "GET" u none with
    | Except.error e => ((none, none, some e), [Call.newRequestCall "GET" u none])
    | Except.ok req =>
      let r := clientDoDeps c req
      match r.2.2 with
      | some e =>
        ((none, r.2.1, some e), [Call.newRequestCall "GET" u none, Call.doCall req])
      | none =>
        ((r.1, r.2.1, none), [Call.newRequestCall "GET" u none, Call.doCall req])

/-- The variant of Create described by the specification note: identical
request construction, but the result of the final `Do` call is returned
unchanged, without the trailing error conditional. -/
def createMergeRequestDependencyDirect (c : Client) (pid : Pid)
    (mergeRequest : Int) (opt : CreateMergeRequestDependencyOptions) :
    (Option HttpResponse × Option String) × List Call :=
  match parseID pid with
  | Except.error e => ((none, some e), [])
  | Except.ok project =>
    let u := blocksPath project mergeRequest
    let body := serializeCreateOptions opt
    match clientNewRequest c "POST" u (some body) with
    | Except.error e => ((none, some e), [Call.newRequestCall "POST" u (some body)])
    | Except.ok req =>
      (clientDoNil c req, [Call.newRequestCall "POST" u (some body), Call.doCall req])

/-- The variant of Delete described by the specification note: identical
request construction, but the result of the final `Do` call is returned
unchanged, without the trailing error conditional. -/
def deleteMergeRequestDependencyDirect (c : Client) (pid : Pid)
    (mergeRequest blockingMergeRequest : Int) :
    (Option HttpResponse × Option String) × List Call :=
  match parseID pid with
  | Except.error e => ((none, some e), [])
  | Except.ok project =>
    let u := blocksDeletePath project mergeRequest blockingMergeRequest
    match clientNewRequest c "DELETE" u none with
    | Except.error e => ((none, some e), [Call.newRequestCall "DELETE" u none])
    | Except.ok req =>
      (clientDoNil c req, [Call.newRequestCall "DELETE" u none, Call.doCall req])

/-- Split a character list into the segments separated by the slash
character, used to state where the escaped identifier sits in a request
path. -/
def splitSegs : List Char → List (List Char)
  | [] => [[]]
  | c :: cs =>
    if c = '/' then [] :: splitSegs cs
    else (c :: (splitSegs cs).headI) :: (splitSegs cs).tail

/-- The slash-separated segments of a request path. -/
def pathSegs (u : String) : List (List Char) :=
  splitSegs u.data

/-- A collaborator whose request construction always succeeds and whose
transport always answers 200 with an empty JSON array body. -/
def okClient : Client where
  newRequestFail := fun _ _ _ => none
  outcome := fun _ => DoOutcome.success { statusCode := 200, body := Json.arr [] }

/-- A collaborator whose transport always fails with a fixed error while
still producing response metadata (status 503). -/
def failDoClient : Client where
  newRequestFail := fun _ _ _ => none
  outcome := fun _ => DoOutcome.failure
    (some { statusCode := 503, body := Json.null }) "connection reset"

/-- A collaborator whose request construction always fails with a fixed
error. -/
def failNewClient : Client where
  newRequestFail := fun _ _ _ => some "invalid base URL"
  outcome := fun _ => DoOutcome.success { statusCode := 200, body := Json.arr [] }

/-- A canned JSON fixture: two dependency records with distinct IDs and
distinct embedded blocking merge request titles. -/
def fixtureBody : Json :=
  Json.arr [
    Json.obj [("id", Json.num 101),
      ("blocking_merge_request",
        Json.obj [("id", Json.num 1), ("title", Json.str "First")]),
      ("project_id", Json.num 7)],
    Json.obj [("id", Json.num 102),
      ("blocking_merge_request",
        Json.obj [("id", Json.num 2), ("title", Json.str "Second")]),
      ("project_id", Json.num 7)]]

/-- The decoded form of `fixtureBody`. -/
def fixtureDecoded : List MergeRequestDependency :=
  [{ ID := 101,
     BlockingMergeRequest := { zeroBlockingMergeRequest with ID := 1, Title := "First" },
     ProjectID := 7 },
   { ID := 102,
     BlockingMergeRequest := { zeroBlockingMergeRequest with ID := 2, Title := "Second" },
     ProjectID := 7 }]

/-- A collaborator whose transport always answers 200 with the canned
two-record fixture body. -/
def fixtureClient : Client where
  newRequestFail := fun _ _ _ => none
  outcome := fun _ => DoOutcome.success { statusCode := 200, body := fixtureBody }

/-- A collaborator whose transport succeeds but answers a body that is not
a JSON array, so that decoding into the dependency list fails. -/
def decodeFailClient : Client where
  newRequestFail := fun _ _ _ => none
  outcome := fun _ => DoOutcome.success { statusCode := 200, body := Json.num 3 }

/-! ## Helper lemmas -/

theorem digitChar_big (n : Nat) (h : 16 ≤ n) : Nat.digitChar n = '*' := by
  have h0 : n ≠ 0 := by omega
  have h1 : n ≠ 1 := by omega
  have h2 : n ≠ 2 := by omega
  have h3 : n ≠ 3 := by omega
  have h4 : n ≠ 4 := by omega
  have h5 : n ≠ 5 := by omega
  have h6 : n ≠ 6 := by omega
  have h7 : n ≠ 7 := by omega
  have h8 : n ≠ 8 := by omega
  have h9 : n ≠ 9 := by omega
  have h10 : n ≠ 10 := by omega
  have h11 : n ≠ 11 := by omega
  have h12 : n ≠ 12 := by omega
  have h13 : n ≠ 13 := by omega
  have h14 : n ≠ 14 := by omega
  have h15 : n ≠ 15 := by omega
  unfold Nat.digitChar
  simp [h0, h1, h2, h3, h4, h5, h6, h7, h8, h9, h10, h11, h12, h13, h14, h15]

theorem digitChar_ne_slash (n : Nat) : Nat.digitChar n ≠ '/' := by
  by_cases h : n < 16
  · exact (by decide : ∀ m, m < 16 → Nat.digitChar m ≠ '/') n h
  · rw [digitChar_big n (by omega)]
    decide

theorem toDigitsCore_no_slash (b fuel : Nat) :
    ∀ (n : Nat) (ds : List Char), (∀ c ∈ ds, c ≠ '/') →
      ∀ c ∈ Nat.toDigitsCore b fuel n ds, c ≠ '/' := by
  induction fuel with
  | zero => intro n ds hds c hc; exact hds c hc
  | succ fuel ih =>
    intro n ds hds c hc
    simp only [Nat.toDigitsCore] at hc
    split at hc
    · rcases List.mem_cons.mp hc with h | h
      · exact h ▸ digitChar_ne_slash _
      · exact hds c h
    · refine ih _ _ ?_ c hc
      intro d hd
      rcases List.mem_cons.mp hd with h | h
      · exact h ▸ digitChar_ne_slash _
      · exact hds d h

theorem natRepr_no_slash (n : Nat) : ∀ c ∈ (Nat.repr n).data, c ≠ '/' := by
  intro c hc
  have : c ∈ Nat.toDigitsCore 10 (n + 1) n [] := hc
  exact toDigitsCore_no_slash 10 (n + 1) n [] (by intro d hd; cases hd) c this

theorem intToString_no_slash (n : Int) : ∀ c ∈ (toString n).data, c ≠ '/' := by
  intro c hc
  cases n with
  | ofNat m => exact natRepr_no_slash m c hc
  | negSucc m =>
    have : c ∈ ("-" : String).data ++ (Nat.repr (m + 1)).data := hc
    rcases List.mem_append.mp this with h | h
    · rcases List.mem_singleton.mp h with rfl; decide
    · exact natRepr_no_slash (m + 1) c h

theorem utf8Bytes_lt (c : Char) : ∀ b ∈ utf8Bytes c, b < 256 := by
  intro b hb
  have hv : c.toNat < 1114112 := by
    have h := c.valid
    rcases h with h | ⟨h1, h2⟩
    · have : c.toNat < 55296 := h
      omega
    · have : c.toNat < 1114112 := h2
      exact this
  simp only [utf8Bytes] at hb
  split at hb
  · simp only [List.mem_singleton] at hb
    omega
  · split at hb
    · simp only [List.mem_cons, List.mem_singleton, List.not_mem_nil, or_false] at hb
      rcases hb with rfl | rfl <;> omega
    · split at hb
      · simp only [List.mem_cons, List.not_mem_nil, or_false] at hb
        rcases hb with rfl | rfl | rfl <;> omega
      · simp only [List.mem_cons, List.not_mem_nil, or_false] at hb
        rcases hb with rfl | rfl | rfl | rfl <;> omega

set_option maxRecDepth 4096 in
theorem escByte_no_slash (b : Nat) (hb : b < 256) : ∀ c ∈ escByte b, c ≠ '/' :=
  (by decide : ∀ m, m < 256 → ∀ c ∈ escByte m, c ≠ '/') b hb

theorem pathEscape_no_slash (s : String) : ∀ c ∈ (pathEscape s).data, c ≠ '/' := by
  intro c hc
  have hc' : c ∈ (s.data.flatMap utf8Bytes).flatMap escByte := hc
  rcases List.mem_flatMap.mp hc' with ⟨b, hbmem, hcb⟩
  rcases List.mem_flatMap.mp hbmem with ⟨ch, _, hbch⟩
  exact escByte_no_slash b (utf8Bytes_lt ch b hbch) c hcb

theorem splitSegs_no_slash (xs : List Char) (h : ∀ c ∈ xs, c ≠ '/') :
    splitSegs xs = [xs] := by
  induction xs with
  | nil => rfl
  | cons c cs ih =>
    have hc : c ≠ '/' := h c (List.mem_cons_self c cs)
    have ih' := ih (fun d hd => h d (List.mem_cons_of_mem c hd))
    simp [splitSegs, hc, ih']

theorem splitSegs_append (xs ys : List Char) (h : ∀ c ∈ xs, c ≠ '/') :
    splitSegs (xs ++ '/' :: ys) = xs :: splitSegs ys := by
  induction xs with
  | nil => simp [splitSegs]
  | cons c cs ih =>
    have hc : c ≠ '/' := h c (List.mem_cons_self c cs)
    have ih' := ih (fun d hd => h d (List.mem_cons_of_mem c hd))
    simp [splitSegs, hc, ih']

theorem splitSegs_append_all (xs : List Char) (h : ∀ c ∈ xs, c ≠ '/') :
    ∀ ys, splitSegs (xs ++ '/' :: ys) = xs :: splitSegs ys :=
  fun ys => splitSegs_append xs ys h

theorem blocksPath_segs (project : String) (mergeRequest : Int) :
    pathSegs (blocksPath project mergeRequest) =
      ["projects".data, (pathEscape project).data, "merge_requests".data,
       (toString mergeRequest).data, "blocks".data] := by
  have hesc := pathEscape_no_slash project
  have hn := intToString_no_slash mergeRequest
  unfold pathSegs blocksPath
  revert hesc hn
  generalize pathEscape project = esc
  generalize toString mergeRequest = n
  intro hesc hn
  simp [splitSegs, splitSegs_append_all _ hesc, splitSegs_append_all _ hn]

theorem blocksDeletePath_segs (project : String) (mergeRequest blockingMergeRequest : Int) :
    pathSegs (blocksDeletePath project mergeRequest blockingMergeRequest) =
      ["projects".data, (pathEscape project).data, "merge_requests".data,
       (toString mergeRequest).data, "blocks".data,
       (toString blockingMergeRequest).data] := by
  have hesc := pathEscape_no_slash project
  have hn := intToString_no_slash mergeRequest
  have hb := intToString_no_slash blockingMergeRequest
  unfold pathSegs blocksDeletePath
  revert hesc hn hb
  generalize pathEscape project = esc
  generalize toString mergeRequest = n
  generalize toString blockingMergeRequest = bn
  intro hesc hn hb
  simp [splitSegs, splitSegs_append_all _ hesc, splitSegs_append_all _ hn,
    splitSegs_no_slash _ hb]

/-! ## Claim theorems -/

/-- C1: for every parent identifier that fails normalization, Create,
Delete and Get each return that error immediately with a nil response (and
a nil list for Get), and perform no collaborator call at all: the recorded
call trace is empty, so neither request construction nor request execution
is invoked. -/
theorem invalid_pid_no_call (c : Client) (pid : Pid) (e : String)
    (mergeRequest blockingMergeRequest : Int)
    (opt : CreateMergeRequestDependencyOptions)
    (h : parseID pid = Except.error e) :
    createMergeRequestDependency c pid mergeRequest opt = ((none, some e), []) ∧
    deleteMergeRequestDependency c pid mergeRequest blockingMergeRequest =
      ((none, some e), []) ∧
    getMergeRequestDependencies c pid mergeRequest = ((none, none, some e), []) := by
  unfold createMergeRequestDependency deleteMergeRequestDependency
    getMergeRequestDependencies
  rw [h]
  exact ⟨rfl, rfl, rfl⟩

theorem invalid_pid_no_call_witness :
    createMergeRequestDependency okClient (Pid.other "bool") 2 ⟨3⟩ =
      ((none, some "invalid ID type bool"), []) ∧
    deleteMergeRequestDependency okClient (Pid.other "bool") 2 3 =
      ((none, some "invalid ID type bool"), []) ∧
    getMergeRequestDependencies okClient (Pid.other "bool") 2 =
      ((none, none, some "invalid ID type bool"), []) :=
  invalid_pid_no_call okClient (Pid.other "bool") "invalid ID type bool" 2 3 ⟨3⟩ rfl

/-- C10: after successful identifier normalization, when request
construction fails each operation returns that error with a nil response
(and a nil list for Get), and the transport `Do` is never invoked: the
trace holds the construction call only. -/
theorem newRequest_error_no_do (c : Client) (pid : Pid) (project : String)
    (mergeRequest blockingMergeRequest : Int)
    (opt : CreateMergeRequestDependencyOptions)
    (hp : parseID pid = Except.ok project) :
    (∀ e, c.newRequestFail "POST" (blocksPath project mergeRequest)
        (some (serializeCreateOptions opt)) = some e →
      createMergeRequestDependency c pid mergeRequest opt =
        ((none, some e),
         [Call.newRequestCall "POST" (blocksPath project mergeRequest)
            (some (serializeCreateOptions opt))])) ∧
    (∀ e, c.newRequestFail "DELETE"
        (blocksDeletePath project mergeRequest blockingMergeRequest) none = some e →
      deleteMergeRequestDependency c pid mergeRequest blockingMergeRequest =
        ((none, some e),
         [Call.newRequestCall "DELETE"
            (blocksDeletePath project mergeRequest blockingMergeRequest) none])) ∧
    (∀ e, c.newRequestFail "GET" (blocksPath project mergeRequest) none = some e →
      getMergeRequestDependencies c pid mergeRequest =
        ((none, none, some e),
         [Call.newRequestCall "GET" (blocksPath project mergeRequest) none])) := by
  refine ⟨fun e he => ?_, fun e he => ?_, fun e he => ?_⟩
  · unfold createMergeRequestDependency
    rw [hp]
    simp [clientNewRequest, he]
  · unfold deleteMergeRequestDependency
    rw [hp]
    simp [clientNewRequest, he]
  · unfold getMergeRequestDependencies
    rw [hp]
    simp [clientNewRequest, he]

theorem newRequest_error_no_do_witness :
    createMergeRequestDependency failNewClient (Pid.byInt 1) 2 ⟨4⟩ =
      ((none, some "invalid base URL"),
       [Call.newRequestCall "POST" "projects/1/merge_requests/2/blocks"
          (some [("blocking_merge_request_id", Json.num 4)])]) ∧
    deleteMergeRequestDependency failNewClient (Pid.byInt 1) 2 3 =
      ((none, some "invalid base URL"),
       [Call.newRequestCall "DELETE" "projects/1/merge_requests/2/blocks/3" none]) ∧
    getMergeRequestDependencies failNewClient (Pid.byInt 1) 2 =
      ((none, none, some "invalid base URL"),
       [Call.newRequestCall "GET" "projects/1/merge_requests/2/blocks" none]) :=
  ⟨(newRequest_error_no_do failNewClient (Pid.byInt 1) "1" 2 3 ⟨4⟩ rfl).1 _ rfl,
   (newRequest_error_no_do failNewClient (Pid.byInt 1) "1" 2 3 ⟨4⟩ rfl).2.1 _ rfl,
   (newRequest_error_no_do failNewClient (Pid.byInt 1) "1" 2 3 ⟨4⟩ rfl).2.2 _ rfl⟩

/-- C7: Create and Delete, which reassign the error variable and return it
in both branches of the final conditional, are observationally equivalent
to the variants that return the result of the final `Do` call unchanged:
results and call traces coincide for every collaborator and input. -/
theorem createDelete_direct_equiv (c : Client) (pid : Pid)
    (mergeRequest blockingMergeRequest : Int)
    (opt : CreateMergeRequestDependencyOptions) :
    createMergeRequestDependency c pid mergeRequest opt =
      createMergeRequestDependencyDirect c pid mergeRequest opt ∧
    deleteMergeRequestDependency c pid mergeRequest blockingMergeRequest =
      deleteMergeRequestDependencyDirect c pid mergeRequest blockingMergeRequest := by
  constructor
  · cases hp : parseID pid with
    | error e =>
      simp [createMergeRequestDependency, createMergeRequestDependencyDirect, hp]
    | ok project =>
      cases hreq : clientNewRequest c "POST" (blocksPath project mergeRequest)
          (some (serializeCreateOptions opt)) with
      | error e =>
        simp [createMergeRequestDependency, createMergeRequestDependencyDirect,
          hp, hreq]
      | ok req =>
        cases hdo : (clientDoNil c req).2 with
        | none =>
          simp [createMergeRequestDependency, createMergeRequestDependencyDirect,
            hp, hreq, hdo]
          rw [← hdo]
        | some e =>
          simp [createMergeRequestDependency, createMergeRequestDependencyDirect,
            hp, hreq, hdo]
          rw [← hdo]
  · cases hp : parseID pid with
    | error e =>
      simp [deleteMergeRequestDependency, deleteMergeRequestDependencyDirect, hp]
    | ok project =>
      cases hreq : clientNewRequest c "DELETE"
          (blocksDeletePath project mergeRequest blockingMergeRequest) none with
      | error e =>
        simp [deleteMergeRequestDependency, deleteMergeRequestDependencyDirect,
          hp, hreq]
      | ok req =>
        cases hdo : (clientDoNil c req).2 with
        | none =>
          simp [deleteMergeRequestDependency, deleteMergeRequestDependencyDirect,
            hp, hreq, hdo]
          rw [← hdo]
        | some e =>
          simp [deleteMergeRequestDependency, deleteMergeRequestDependencyDirect,
            hp, hreq, hdo]
          rw [← hdo]

/-- C3: for every valid parent identifier and pair of merge request
numbers, when request construction succeeds Delete performs exactly one
transport call, a DELETE whose path is
`projects/<escaped parent>/merge_requests/<mergeRequest>/blocks/<blockingMergeRequest>`
(its segments carry both sequence numbers) and whose body argument is
nil. -/
theorem delete_issues_one_delete (c : Client) (pid : Pid) (project : String)
    (mergeRequest blockingMergeRequest : Int)
    (hp : parseID pid = Except.ok project)
    (hreq : c.newRequestFail "DELETE"
      (blocksDeletePath project mergeRequest blockingMergeRequest) none = none) :
    (deleteMergeRequestDependency c pid mergeRequest blockingMergeRequest).2 =
      [Call.newRequestCall "DELETE"
         (blocksDeletePath project mergeRequest blockingMergeRequest) none,
       Call.doCall ⟨"DELETE",
         blocksDeletePath project mergeRequest blockingMergeRequest, none⟩] ∧
    pathSegs (blocksDeletePath project mergeRequest blockingMergeRequest) =
      ["projects".data, (pathEscape project).data, "merge_requests".data,
       (toString mergeRequest).data, "blocks".data,
       (toString blockingMergeRequest).data] := by
  constructor
  · cases hdo : (clientDoNil c
        ⟨"DELETE", blocksDeletePath project mergeRequest blockingMergeRequest,
         none⟩).2 with
    | none => simp [deleteMergeRequestDependency, hp, clientNewRequest, hreq, hdo]
    | some e => simp [deleteMergeRequestDependency, hp, clientNewRequest, hreq, hdo]
  · exact blocksDeletePath_segs project mergeRequest blockingMergeRequest

theorem delete_issues_one_delete_witness :
    (deleteMergeRequestDependency okClient (Pid.byInt 1) 2 3).2 =
      [Call.newRequestCall "DELETE" "projects/1/merge_requests/2/blocks/3" none,
       Call.doCall ⟨"DELETE", "projects/1/merge_requests/2/blocks/3", none⟩] ∧
    pathSegs "projects/1/merge_requests/2/blocks/3" =
      ["projects".data, "1".data, "merge_requests".data, "2".data,
       "blocks".data, "3".data] := by
  have h := delete_issues_one_delete okClient (Pid.byInt 1) "1" 2 3 rfl rfl
  exact ⟨h.1, by rw [show ("projects/1/merge_requests/2/blocks/3" : String) =
    blocksDeletePath "1" 2 3 by decide]; exact h.2⟩

/-- C2 counterexample: with a zero blocking merge request identifier the
POST is issued, but its serialized body is empty — it contains no
`blocking_merge_request_id` field at all, so the claim fails for that
options value. -/
theorem create_zero_id_body_lacks_field :
    (createMergeRequestDependency okClient (Pid.byInt 1) 2 ⟨0⟩).2 =
      [Call.newRequestCall "POST" "projects/1/merge_requests/2/blocks" (some []),
       Call.doCall ⟨"POST", "projects/1/merge_requests/2/blocks", some []⟩] ∧
    lookupField (serializeCreateOptions ⟨0⟩) "blocking_merge_request_id" = none :=
  ⟨rfl, rfl⟩

/-- C2 (amended): for every valid parent identifier, merge request number
and options value whose blocking merge request identifier is nonzero, when
request construction succeeds Create performs exactly one transport call,
a POST to `projects/<escaped parent>/merge_requests/<mergeRequest>/blocks`
whose body/query serialization carries the supplied
`blocking_merge_request_id` field; a zero identifier is omitted by
`omitempty`. -/
theorem create_posts_blocking_id (c : Client) (pid : Pid) (project : String)
    (mergeRequest : Int) (opt : CreateMergeRequestDependencyOptions)
    (hp : parseID pid = Except.ok project)
    (hreq : c.newRequestFail "POST" (blocksPath project mergeRequest)
      (some (serializeCreateOptions opt)) = none)
    (hnz : opt.BlockingMergeRequestID ≠ 0) :
    (createMergeRequestDependency c pid mergeRequest opt).2 =
      [Call.newRequestCall "POST" (blocksPath project mergeRequest)
         (some (serializeCreateOptions opt)),
       Call.doCall ⟨"POST", blocksPath project mergeRequest,
         some (serializeCreateOptions opt)⟩] ∧
    lookupField (serializeCreateOptions opt) "blocking_merge_request_id" =
      some (Json.num opt.BlockingMergeRequestID) := by
  constructor
  · cases hdo : (clientDoNil c
        ⟨"POST", blocksPath project mergeRequest,
         some (serializeCreateOptions opt)⟩).2 with
    | none => simp [createMergeRequestDependency, hp, clientNewRequest, hreq, hdo]
    | some e => simp [createMergeRequestDependency, hp, clientNewRequest, hreq, hdo]
  · simp [serializeCreateOptions, hnz, lookupField]

theorem create_posts_blocking_id_witness :
    (createMergeRequestDependency okClient (Pid.byInt 1) 2 ⟨5⟩).2 =
      [Call.newRequestCall "POST" "projects/1/merge_requests/2/blocks"
         (some [("blocking_merge_request_id", Json.num 5)]),
       Call.doCall ⟨"POST", "projects/1/merge_requests/2/blocks",
         some [("blocking_merge_request_id", Json.num 5)]⟩] ∧
    lookupField (serializeCreateOptions ⟨5⟩) "blocking_merge_request_id" =
      some (Json.num 5) :=
  create_posts_blocking_id okClient (Pid.byInt 1) "1" 2 ⟨5⟩ rfl rfl (by decide)

/-- C4: for every valid parent identifier and merge request number, when
request construction succeeds Get performs exactly one transport call, a
GET to `projects/<escaped parent>/merge_requests/<mergeRequest>/blocks`,
and on transport success with a decodable body it returns the dependency
records decoded from the JSON response body together with the transport
response metadata. -/
theorem get_decodes_response (c : Client) (pid : Pid) (project : String)
    (mergeRequest : Int) (r : HttpResponse)
    (mrd : Option (List MergeRequestDependency))
    (hp : parseID pid = Except.ok project)
    (hreq : c.newRequestFail "GET" (blocksPath project mergeRequest) none = none)
    (hdo : c.outcome ⟨"GET", blocksPath project mergeRequest, none⟩ =
      DoOutcome.success r)
    (hdec : decodeDependencyList r.body = Except.ok mrd) :
    getMergeRequestDependencies c pid mergeRequest =
      ((mrd, some r, none),
       [Call.newRequestCall "GET" (blocksPath project mergeRequest) none,
        Call.doCall ⟨"GET", blocksPath project mergeRequest, none⟩]) := by
  simp [getMergeRequestDependencies, hp, clientNewRequest, hreq, clientDoDeps,
    hdo, hdec]

theorem get_decodes_response_witness :
    getMergeRequestDependencies fixtureClient (Pid.byInt 1) 2 =
      ((some fixtureDecoded, some ⟨200, fixtureBody⟩, none),
       [Call.newRequestCall "GET" "projects/1/merge_requests/2/blocks" none,
        Call.doCall ⟨"GET", "projects/1/merge_requests/2/blocks", none⟩]) :=
  get_decodes_response fixtureClient (Pid.byInt 1) "1" 2 ⟨200, fixtureBody⟩
    (some fixtureDecoded) rfl rfl rfl rfl

/-- C6: whenever the transport `Do` call fails, each operation returns
exactly that error together with whatever response metadata `Do`
produced, and the decoded result is empty: Create and Delete return the
metadata/error pair unchanged, Get returns a nil list; a decode failure
inside `Do` on Get behaves the same way.  No retry or translation
happens: the returned error is the collaborator error itself. -/
theorem do_error_propagates (c : Client) (pid : Pid) (project : String)
    (mergeRequest blockingMergeRequest : Int)
    (opt : CreateMergeRequestDependencyOptions)
    (hp : parseID pid = Except.ok project) :
    (∀ r e, c.newRequestFail "POST" (blocksPath project mergeRequest)
        (some (serializeCreateOptions opt)) = none →
      c.outcome ⟨"POST", blocksPath project mergeRequest,
        some (serializeCreateOptions opt)⟩ = DoOutcome.failure r e →
      createMergeRequestDependency c pid mergeRequest opt =
        ((r, some e),
         [Call.newRequestCall "POST" (blocksPath project mergeRequest)
            (some (serializeCreateOptions opt)),
          Call.doCall ⟨"POST", blocksPath project mergeRequest,
            some (serializeCreateOptions opt)⟩])) ∧
    (∀ r e, c.newRequestFail "DELETE"
        (blocksDeletePath project mergeRequest blockingMergeRequest) none = none →
      c.outcome ⟨"DELETE",
        blocksDeletePath project mergeRequest blockingMergeRequest, none⟩ =
        DoOutcome.failure r e →
      deleteMergeRequestDependency c pid mergeRequest blockingMergeRequest =
        ((r, some e),
         [Call.newRequestCall "DELETE"
            (blocksDeletePath project mergeRequest blockingMergeRequest) none,
          Call.doCall ⟨"DELETE",
            blocksDeletePath project mergeRequest blockingMergeRequest, none⟩])) ∧
    (∀ r e, c.newRequestFail "GET" (blocksPath project mergeRequest) none = none →
      c.outcome ⟨"GET", blocksPath project mergeRequest, none⟩ =
        DoOutcome.failure r e →
      getMergeRequestDependencies c pid mergeRequest =
        ((none, r, some e),
         [Call.newRequestCall "GET" (blocksPath project mergeRequest) none,
          Call.doCall ⟨"GET", blocksPath project mergeRequest, none⟩])) ∧
    (∀ r e, c.newRequestFail "GET" (blocksPath project mergeRequest) none = none →
      c.outcome ⟨"GET", blocksPath project mergeRequest, none⟩ =
        DoOutcome.success r →
      decodeDependencyList r.body = Except.error e →
      getMergeRequestDependencies c pid mergeRequest =
        ((none, some r, some e),
         [Call.newRequestCall "GET" (blocksPath project mergeRequest) none,
          Call.doCall ⟨"GET", blocksPath project mergeRequest, none⟩])) := by
  refine ⟨fun r e hreq hdo => ?_, fun r e hreq hdo => ?_,
    fun r e hreq hdo => ?_, fun r e hreq hdo hdec => ?_⟩
  · simp [createMergeRequestDependency, hp, clientNewRequest, hreq,
      clientDoNil, hdo]
  · simp [deleteMergeRequestDependency, hp, clientNewRequest, hreq,
      clientDoNil, hdo]
  · simp [getMergeRequestDependencies, hp, clientNewRequest, hreq,
      clientDoDeps, hdo]
  · simp [getMergeRequestDependencies, hp, clientNewRequest, hreq,
      clientDoDeps, hdo, hdec]

theorem do_error_propagates_witness :
    createMergeRequestDependency failDoClient (Pid.byInt 1) 2 ⟨5⟩ =
      ((some ⟨503, Json.null⟩, some "connection reset"),
       [Call.newRequestCall "POST" "projects/1/merge_requests/2/blocks"
          (some [("blocking_merge_request_id", Json.num 5)]),
        Call.doCall ⟨"POST", "projects/1/merge_requests/2/blocks",
          some [("blocking_merge_request_id", Json.num 5)]⟩]) ∧
    deleteMergeRequestDependency failDoClient (Pid.byInt 1) 2 3 =
      ((some ⟨503, Json.null⟩, some "connection reset"),
       [Call.newRequestCall "DELETE" "projects/1/merge_requests/2/blocks/3" none,
        Call.doCall ⟨"DELETE", "projects/1/merge_requests/2/blocks/3", none⟩]) ∧
    getMergeRequestDependencies failDoClient (Pid.byInt 1) 2 =
      ((none, some ⟨503, Json.null⟩, some "connection reset"),
       [Call.newRequestCall "GET" "projects/1/merge_requests/2/blocks" none,
        Call.doCall ⟨"GET", "projects/1/merge_requests/2/blocks", none⟩]) ∧
    getMergeRequestDependencies decodeFailClient (Pid.byInt 1) 2 =
      ((none, some ⟨200, Json.num 3⟩,
        some "json: cannot unmarshal value into []MergeRequestDependency"),
       [Call.newRequestCall "GET" "projects/1/merge_requests/2/blocks" none,
        Call.doCall ⟨"GET", "projects/1/merge_requests/2/blocks", none⟩]) :=
  ⟨(do_error_propagates failDoClient (Pid.byInt 1) "1" 2 3 ⟨5⟩ rfl).1 _ _ rfl rfl,
   (do_error_propagates failDoClient (Pid.byInt 1) "1" 2 3 ⟨5⟩ rfl).2.1 _ _ rfl rfl,
   (do_error_propagates failDoClient (Pid.byInt 1) "1" 2 3 ⟨5⟩ rfl).2.2.1 _ _ rfl rfl,
   (do_error_propagates decodeFailClient (Pid.byInt 1) "1" 2 3 ⟨5⟩ rfl).2.2.2 _ _
     rfl rfl rfl⟩

/-- C9: when the options hold a zero blocking merge request identifier,
`omitempty` drops the `blocking_merge_request_id` field from the
serialized body entirely, and the body Create hands to request
construction is the empty serialization. -/
theorem create_zero_id_omits_field (c : Client) (pid : Pid) (project : String)
    (mergeRequest : Int) (opt : CreateMergeRequestDependencyOptions)
    (hp : parseID pid = Except.ok project)
    (hz : opt.BlockingMergeRequestID = 0) :
    serializeCreateOptions opt = [] ∧
    lookupField (serializeCreateOptions opt) "blocking_merge_request_id" = none ∧
    (createMergeRequestDependency c pid mergeRequest opt).2.head? =
      some (Call.newRequestCall "POST" (blocksPath project mergeRequest)
        (some [])) := by
  have hs : serializeCreateOptions opt = [] := by simp [serializeCreateOptions, hz]
  refine ⟨hs, by simp [hs, lookupField], ?_⟩
  cases hreq : c.newRequestFail "POST" (blocksPath project mergeRequest)
      (some []) with
  | some e =>
    simp [createMergeRequestDependency, hp, hs, clientNewRequest, hreq]
  | none =>
    cases hdo : (clientDoNil c
        ⟨"POST", blocksPath project mergeRequest, some []⟩).2 with
    | none =>
      simp [createMergeRequestDependency, hp, hs, clientNewRequest, hreq, hdo]
    | some e =>
      simp [createMergeRequestDependency, hp, hs, clientNewRequest, hreq, hdo]

theorem create_zero_id_omits_field_witness :
    serializeCreateOptions ⟨0⟩ = [] ∧
    lookupField (serializeCreateOptions ⟨0⟩) "blocking_merge_request_id" = none ∧
    (createMergeRequestDependency okClient (Pid.byInt 1) 2 ⟨0⟩).2.head? =
      some (Call.newRequestCall "POST" "projects/1/merge_requests/2/blocks"
        (some [])) :=
  create_zero_id_omits_field okClient (Pid.byInt 1) "1" 2 ⟨0⟩ rfl rfl

/-- C5 counterexample: for parent identifier 5 and merge request number 5
the escaped identifier `5` occurs twice among the slash-separated segments
of the Create/Get request path, so it does not occur exactly once. -/
theorem escaped_id_twice_counterexample :
    parseID (Pid.byInt 5) = Except.ok "5" ∧
    (createMergeRequestDependency okClient (Pid.byInt 5) 5 ⟨1⟩).2.head? =
      some (Call.newRequestCall "POST" "projects/5/merge_requests/5/blocks"
        (some [("blocking_merge_request_id", Json.num 1)])) ∧
    (pathSegs "projects/5/merge_requests/5/blocks").count
      (pathEscape "5").data = 2 := by
  refine ⟨rfl, rfl, by decide⟩

/-- C5 (amended): for every valid parent identifier and each of the three
operations, the constructed request path splits into slash-separated
segments whose first segment is `projects` and whose second segment is
exactly the path-escaped identifier; the escaped identifier occurs exactly
once among the segments whenever it differs from the fixed literal
segments and from the rendered merge request numbers (coincidence with
those, as in the counterexample, duplicates it). -/
theorem escaped_id_segment_position (pid : Pid) (project : String)
    (mergeRequest blockingMergeRequest : Int)
    (_hp : parseID pid = Except.ok project) :
    pathSegs (blocksPath project mergeRequest) =
      ["projects".data, (pathEscape project).data, "merge_requests".data,
       (toString mergeRequest).data, "blocks".data] ∧
    pathSegs (blocksDeletePath project mergeRequest blockingMergeRequest) =
      ["projects".data, (pathEscape project).data, "merge_requests".data,
       (toString mergeRequest).data, "blocks".data,
       (toString blockingMergeRequest).data] ∧
    ((pathEscape project).data ∉
        ["projects".data, "merge_requests".data, (toString mergeRequest).data,
         "blocks".data] →
      (pathSegs (blocksPath project mergeRequest)).count
        (pathEscape project).data = 1) ∧
    ((pathEscape project).data ∉
        ["projects".data, "merge_requests".data, (toString mergeRequest).data,
         "blocks".data, (toString blockingMergeRequest).data] →
      (pathSegs (blocksDeletePath project mergeRequest blockingMergeRequest)).count
        (pathEscape project).data = 1) := by
  refine ⟨blocksPath_segs project mergeRequest,
    blocksDeletePath_segs project mergeRequest blockingMergeRequest,
    fun h => ?_, fun h => ?_⟩
  · rw [blocksPath_segs]
    simp only [List.mem_cons, List.not_mem_nil, or_false, not_or] at h
    obtain ⟨h1, h2, h3, h4⟩ := h
    simp [List.count_cons, Ne.symm h1, Ne.symm h2, Ne.symm h3, Ne.symm h4]
  · rw [blocksDeletePath_segs]
    simp only [List.mem_cons, List.not_mem_nil, or_false, not_or] at h
    obtain ⟨h1, h2, h3, h4, h5⟩ := h
    simp [List.count_cons, Ne.symm h1, Ne.symm h2, Ne.symm h3, Ne.symm h4,
      Ne.symm h5]

theorem escaped_id_segment_position_witness :
    pathSegs (blocksPath "a" 2) =
      ["projects".data, (pathEscape "a").data, "merge_requests".data,
       (toString (2 : Int)).data, "blocks".data] ∧
    pathSegs (blocksDeletePath "a" 2 3) =
      ["projects".data, (pathEscape "a").data, "merge_requests".data,
       (toString (2 : Int)).data, "blocks".data, (toString (3 : Int)).data] ∧
    (pathSegs (blocksPath "a" 2)).count (pathEscape "a").data = 1 ∧
    (pathSegs (blocksDeletePath "a" 2 3)).count (pathEscape "a").data = 1 := by
  have h := escaped_id_segment_position (Pid.byStr "a") "a" 2 3 rfl
  exact ⟨h.1, h.2.1, h.2.2.1 (by decide), h.2.2.2 (by decide)⟩

/-- C8 counterexample: the value-typed field tagged `upvotes` does not
preserve the absent-versus-zero distinction: a payload without the key and
a payload carrying the key with its zero value decode to identical
records, so the claim fails for that field. -/
theorem blocking_value_field_indistinct :
    decodeBlockingMergeRequest (Json.obj []) =
      Except.ok zeroBlockingMergeRequest ∧
    decodeBlockingMergeRequest (Json.obj [("upvotes", Json.num 0)]) =
      Except.ok zeroBlockingMergeRequest := ⟨rfl, rfl⟩

/-- C8 (amended): every pointer-typed or slice-typed field of
`BlockingMergeRequest` preserves the absent-versus-zero distinction —
absent decodes to a nil (`none`) value while a present zero payload
decodes to a non-nil (`some`) value; the value-typed fields (plain int,
string, bool and timestamp fields) decode an absent key and a zero-valued
key to the same record, as the counterexample shows. -/
theorem blocking_ptr_fields_distinct :
    (decodeBlockingMergeRequest (Json.obj [])).map (fun b => b.Author.isSome) =
      Except.ok false ∧
    (decodeBlockingMergeRequest (Json.obj [("author", Json.obj [])])).map
      (fun b => b.Author.isSome) = Except.ok true ∧
    (decodeBlockingMergeRequest (Json.obj [])).map (fun b => b.Assignee.isSome) =
      Except.ok false ∧
    (decodeBlockingMergeRequest (Json.obj [("assignee", Json.obj [])])).map
      (fun b => b.Assignee.isSome) = Except.ok true ∧
    (decodeBlockingMergeRequest (Json.obj [])).map (fun b => b.Assignees.isSome) =
      Except.ok false ∧
    (decodeBlockingMergeRequest (Json.obj [("assignees", Json.arr [])])).map
      (fun b => b.Assignees.isSome) = Except.ok true ∧
    (decodeBlockingMergeRequest (Json.obj [])).map (fun b => b.Reviewers.isSome) =
      Except.ok false ∧
    (decodeBlockingMergeRequest (Json.obj [("reviewers", Json.arr [])])).map
      (fun b => b.Reviewers.isSome) = Except.ok true ∧
    (decodeBlockingMergeRequest (Json.obj [])).map (fun b => b.Labels.isSome) =
      Except.ok false ∧
    (decodeBlockingMergeRequest (Json.obj [("labels", Json.arr [])])).map
      (fun b => b.Labels.isSome) = Except.ok true ∧
    (decodeBlockingMergeRequest (Json.obj [])).map (fun b => b.Milestone.isSome) =
      Except.ok false ∧
    (decodeBlockingMergeRequest (Json.obj [("milestone", Json.str "")])).map
      (fun b => b.Milestone.isSome) = Except.ok true ∧
    (decodeBlockingMergeRequest (Json.obj [])).map (fun b => b.MergedBy.isSome) =
      Except.ok false ∧
    (decodeBlockingMergeRequest (Json.obj [("merged_by", Json.obj [])])).map
      (fun b => b.MergedBy.isSome) = Except.ok true ∧
    (decodeBlockingMergeRequest (Json.obj [])).map (fun b => b.MergedAt.isSome) =
      Except.ok false ∧
    (decodeBlockingMergeRequest
      (Json.obj [("merged_at", Json.str "0001-01-01T00:00:00Z")])).map
      (fun b => b.MergedAt.isSome) = Except.ok true ∧
    (decodeBlockingMergeRequest (Json.obj [])).map (fun b => b.ClosedBy.isSome) =
      Except.ok false ∧
    (decodeBlockingMergeRequest (Json.obj [("closed_by", Json.obj [])])).map
      (fun b => b.ClosedBy.isSome) = Except.ok true ∧
    (decodeBlockingMergeRequest (Json.obj [])).map (fun b => b.ClosedAt.isSome) =
      Except.ok false ∧
    (decodeBlockingMergeRequest
      (Json.obj [("closed_at", Json.str "0001-01-01T00:00:00Z")])).map
      (fun b => b.ClosedAt.isSome) = Except.ok true ∧
    (decodeBlockingMergeRequest (Json.obj [])).map
      (fun b => b.ShouldRemoveSourceBranch.isSome) = Except.ok false ∧
    (decodeBlockingMergeRequest
      (Json.obj [("should_remove_source_branch", Json.bool false)])).map
      (fun b => b.ShouldRemoveSourceBranch.isSome) = Except.ok true ∧
    (decodeBlockingMergeRequest (Json.obj [])).map (fun b => b.References.isSome) =
      Except.ok false ∧
    (decodeBlockingMergeRequest (Json.obj [("references", Json.obj [])])).map
      (fun b => b.References.isSome) = Except.ok true ∧
    (decodeBlockingMergeRequest (Json.obj [])).map
      (fun b => b.DiscussionLocked.isSome) = Except.ok false ∧
    (decodeBlockingMergeRequest
      (Json.obj [("discussion_locked", Json.bool false)])).map
      (fun b => b.DiscussionLocked.isSome) = Except.ok true ∧
    (decodeBlockingMergeRequest (Json.obj [])).map (fun b => b.TimeStats.isSome) =
      Except.ok false ∧
    (decodeBlockingMergeRequest (Json.obj [("time_stats", Json.obj [])])).map
      (fun b => b.TimeStats.isSome) = Except.ok true ∧
    (decodeBlockingMergeRequest (Json.obj [])).map
      (fun b => b.ApprovalsBeforeMerge.isSome) = Except.ok false ∧
    (decodeBlockingMergeRequest
      (Json.obj [("approvals_before_merge", Json.num 0)])).map
      (fun b => b.ApprovalsBeforeMerge.isSome) = Except.ok true ∧
    (decodeBlockingMergeRequest (Json.obj [])).map
      (fun b => b.TaskCompletionStatus.isSome) = Except.ok false ∧
    (decodeBlockingMergeRequest
      (Json.obj [("task_completion_status", Json.obj [])])).map
      (fun b => b.TaskCompletionStatus.isSome) = Except.ok true ∧
    (decodeBlockingMergeRequest (Json.obj [])).map (fun b => b.MergeUser.isSome) =
      Except.ok false ∧
    (decodeBlockingMergeRequest (Json.obj [("merge_user", Json.obj [])])).map
      (fun b => b.MergeUser.isSome) = Except.ok true ∧
    (decodeBlockingMergeRequest (Json.obj [])).map (fun b => b.PreparedAt.isSome) =
      Except.ok false ∧
    (decodeBlockingMergeRequest
      (Json.obj [("prepared_at", Json.str "0001-01-01T00:00:00Z")])).map
      (fun b => b.PreparedAt.isSome) = Except.ok true :=
  ⟨rfl, rfl, rfl, rfl, rfl, rfl, rfl, rfl, rfl, rfl, rfl, rfl, rfl, rfl, rfl,
   rfl, rfl, rfl, rfl, rfl, rfl, rfl, rfl, rfl, rfl, rfl, rfl, rfl, rfl, rfl,
   rfl, rfl, rfl, rfl, rfl, rfl⟩
